import Mathlib

/-!
Shallow embedding of the BREMOR menu Telegram bot (`src/main.py`).

The core of the program is three handlers:

* `send_menu`   (main.py lines 63-90): builds the fixed two-button inline
  keyboard and sends the prompt "BREMOR меню:"; it catches every exception
  of the send with an ordered except-chain (NetworkError, TelegramError,
  Exception) and only logs.
* `start`       (main.py lines 94-103): logs an info record and calls
  `send_menu` with no `query_message`.
* `button_callback` (main.py lines 107-155): acknowledges the callback
  query, looks the raw key up in `file_map`, resolves the file, sends a
  document or a "file not found" text, re-sends the keyboard, and on a
  recognized key wraps everything after the lookup in a try with the same
  ordered except-chain, each arm logging and sending a text reply.

Modelling choices:

* Every outward transport call (`query.answer`, `reply_document`,
  `reply_text`) consumes the next element of a queue
  `Transport = List (Option Exn)`: `none` means the call succeeds, `some e`
  means the call raises the exception `e`.  An exhausted queue yields
  success, so the empty queue models a run with no transport failure.
* The filesystem is a map `fs : String → Option Datetime` from a path to
  the civil local modification time of the file when it exists
  (`os.path.exists` is `(fs p).isSome`, `datetime.fromtimestamp
  (os.path.getmtime p)` is the stored `Datetime`).
* A handler run is a trace of effects (acknowledgment, filesystem probes,
  send attempts each recording the reply payload and the outcome of the
  call, log records) together with the exception escaping the handler, if
  any.
* In the python-telegram-bot library `NetworkError` is a subclass of
  `TelegramError`; the predicate `Exn.isTelegramError` records that class
  hierarchy, and the ordered except-chains of the source are embedded as
  if-chains testing `isNetworkError` first.
-/

/-- Exceptions that an outward transport call can raise, with the class
hierarchy of the `telegram.error` module: `networkError` is a
`NetworkError` (and hence also a `TelegramError`), `telegramError` is a
`TelegramError` that is not a `NetworkError`, `otherError` is any other
`Exception`. -/
inductive Exn where
  | networkError
  | telegramError (msg : String)
  | otherError (msg : String)
deriving DecidableEq, Repr

/-- `isinstance(e, NetworkError)`. -/
def Exn.isNetworkError : Exn → Bool
  | .networkError => true
  | _ => false

/-- `isinstance(e, TelegramError)`: true for `networkError` because
`NetworkError` subclasses `TelegramError` in python-telegram-bot. -/
def Exn.isTelegramError : Exn → Bool
  | .networkError => true
  | .telegramError _ => true
  | _ => false

/-- `str(e)`. -/
def Exn.message : Exn → String
  | .networkError => "NetworkError"
  | .telegramError m => m
  | .otherError m => m

/-- Civil local date-time, the value of
`datetime.fromtimestamp(os.path.getmtime(path))`. -/
structure Datetime where
  year : Nat
  month : Nat
  day : Nat
  hour : Nat
  minute : Nat
deriving DecidableEq, Repr

/-- Zero-padded two-digit decimal field of `strftime`. -/
def pad2 (n : Nat) : String :=
  if n < 10 then "0" ++ toString n else toString n

/-- Zero-padded four-digit `%Y` field of `strftime`. -/
def pad4 (n : Nat) : String :=
  if n < 10 then "000" ++ toString n
  else if n < 100 then "00" ++ toString n
  else if n < 1000 then "0" ++ toString n
  else toString n

/-- `t.strftime('%d.%m.%Y %H:%M')` (main.py line 131). -/
def strftime_dmY_HM (t : Datetime) : String :=
  pad2 t.day ++ "." ++ pad2 t.month ++ "." ++ pad4 t.year ++ " "
    ++ pad2 t.hour ++ ":" ++ pad2 t.minute

/-- `os.path.join(menuPath, fileName)` for a relative `fileName` and a
`menuPath` without a trailing separator. -/
def os_path_join (a b : String) : String := a ++ "/" ++ b

/-- An inline keyboard button: display text and callback action key. -/
structure InlineKeyboardButton where
  text : String
  callback_data : String
deriving DecidableEq, Repr

/-- Outbound reply payloads the dispatcher can produce. -/
inductive Reply where
  | keyboardPrompt (text : String) (markup : List (List InlineKeyboardButton))
  | documentReply (path : String) (caption : String)
  | textReply (text : String)
deriving DecidableEq, Repr

/-- Log severities used by the program (`exception` is `logger.exception`:
an error record that also carries the stack trace). -/
inductive LogLevel where
  | info
  | warning
  | error
  | exception
deriving DecidableEq, Repr

/-- One observable effect of a handler run. -/
inductive Effect where
  | ack
  | fsExists (path : String) (found : Bool)
  | fsGetMtime (path : String)
  | fsOpen (path : String)
  | send (r : Reply) (result : Option Exn)
  | log (lvl : LogLevel) (msg : String)
deriving DecidableEq, Repr

/-- Outcomes of the successive outward transport calls of one run; an
exhausted queue means every remaining call succeeds. -/
abbrev Transport := List (Option Exn)

/-- Consume the outcome of the next outward call. -/
def takeResult : Transport → Option Exn × Transport
  | [] => (none, [])
  | r :: rest => (r, rest)

/-- A finished handler run: its effect trace and the exception that
escaped the handler, if any. -/
structure Run where
  trace : List Effect
  escaped : Option Exn
deriving DecidableEq, Repr

/-- The keyboard built by `send_menu` (main.py lines 72-78). -/
def send_menu_keyboard : List (List InlineKeyboardButton) :=
  [[⟨"Завтрак", "breakfast"⟩, ⟨"Обед", "lunch"⟩]]

/-- The three-kind failure taxonomy of the spec (§4.3). -/
inductive FailureKind where
  | network
  | protocolError
  | unknown
deriving DecidableEq, Repr

/-- The classification performed by the ordered except-chains
`except NetworkError / except TelegramError / except Exception`
(main.py lines 85-90 and 143-151): the first matching class wins, so a
`NetworkError` is classified as `network` even though it is also a
`TelegramError`. -/
def classifyExn (e : Exn) : FailureKind :=
  if e.isNetworkError then .network
  else if e.isTelegramError then .protocolError
  else .unknown

/-- The log record emitted by the except-chain of `send_menu`
(main.py lines 85-90). -/
def send_menu_catch (e : Exn) : Effect :=
  match classifyExn e with
  | .network => .log .error "Ошибка сети. NetworkError"
  | .protocolError => .log .error ("Ошибка Telegram API: " ++ e.message)
  | .unknown => .log .exception ("Неизвестная ошибка: " ++ e.message)

/-- `send_menu(update, context, query_message)` (main.py lines 63-90):
given whether `query_message` was passed and whether `update.message` is
present, returns the effects produced and the remaining transport queue.
The except-chain catches every exception of the send, so `send_menu`
never raises. -/
def send_menu (hasQueryMessage : Bool) (updateHasMessage : Bool)
    (tr : Transport) : List Effect × Transport :=
  if hasQueryMessage || updateHasMessage then
    let (r, tr1) := takeResult tr
    let eff := Effect.send (.keyboardPrompt "BREMOR меню:" send_menu_keyboard) r
    match r with
    | none => ([eff], tr1)
    | some e => ([eff, send_menu_catch e], tr1)
  else ([], tr)

/-- `start(update, context)` (main.py lines 94-103): logs the info record
and sends the menu with no `query_message`. -/
def start (userId : Nat) (updateHasMessage : Bool)
    (tr : Transport) : List Effect × Transport :=
  let (t, tr1) := send_menu false updateHasMessage tr
  (Effect.log .info ("Пользователь с ID " ++ toString userId ++ " запустил /start.") :: t,
   tr1)

/-- The `file_map` dictionary lookup (main.py lines 120-124). -/
def file_map (key : String) : Option String :=
  if key = "breakfast" then some "breakfast.xls"
  else if key = "lunch" then some "lunch.xls"
  else none

/-- The user-facing message of each arm of the except-chain of
`button_callback` (main.py lines 143-151). -/
def classifiedUserMsg (e : Exn) : String :=
  match classifyExn e with
  | .network => "Ошибка сети. Проверьте подключение к интернету."
  | .protocolError => "Ошибка Telegram API: " ++ e.message
  | .unknown => "Неизвестная ошибка: " ++ e.message

/-- The log record of each arm of the except-chain of `button_callback`
(main.py lines 143-151). -/
def classifiedLogEffect (e : Exn) : Effect :=
  match classifyExn e with
  | .network => .log .error "Ошибка сети при отправке документа."
  | .protocolError => .log .error ("Ошибка Telegram API: " ++ e.message)
  | .unknown => .log .exception ("Неизвестная ошибка при отправке документа: " ++ e.message)

/-- The except-chain of `button_callback` handling an exception `e` raised
inside the try block (main.py lines 143-151): log, then attempt the
error-report `reply_text`; that reply itself is an outward call whose
failure propagates out of the handler. -/
def button_catch (e : Exn) (tr : Transport) :
    List Effect × Transport × Option Exn :=
  let (r, tr1) := takeResult tr
  ([classifiedLogEffect e, .send (.textReply (classifiedUserMsg e)) r], tr1, r)

/-- Body of `button_callback` after the successful `query.answer()`
(main.py lines 120-155). -/
def button_callback_rest (menuPath : String) (userId : Nat)
    (queryData : String) (fs : String → Option Datetime) (now : String)
    (tr : Transport) : List Effect × Option Exn :=
  match file_map queryData with
  | some file_name =>
    let file_path := os_path_join menuPath file_name
    let (tryTrace, tr1, exn) :=
      match fs file_path with
      | some mtime =>
        let creation_date := strftime_dmY_HM mtime
        let (r, trA) := takeResult tr
        let t0 := [Effect.fsExists file_path true, Effect.fsGetMtime file_path,
                   Effect.fsOpen file_path,
                   Effect.send (.documentReply file_path ("От " ++ creation_date)) r]
        match r with
        | some e => (t0, trA, some e)
        | none =>
          (t0 ++ [Effect.log .info ("Файл " ++ file_name
                    ++ " отправлен пользователю ID " ++ toString userId
                    ++ " " ++ now ++ ".")], trA, none)
      | none =>
        let (r, trA) := takeResult tr
        ([Effect.fsExists file_path false,
          Effect.log .warning ("Файл " ++ file_name ++ " не найден! (запрос от "
            ++ toString userId ++ ")"),
          Effect.send (.textReply "Файл не найден!") r], trA, r)
    match exn with
    | none =>
      let (menuTrace, _) := send_menu true false tr1
      (tryTrace ++ menuTrace, none)
    | some e =>
      let (catchTrace, _, esc) := button_catch e tr1
      (tryTrace ++ catchTrace, esc)
  | none =>
    let (r, _) := takeResult tr
    ([Effect.log .warning ("Некорректный callback_data: " ++ queryData
        ++ " от " ++ toString userId),
      Effect.send (.textReply "Что-то пошло не так!") r], r)

/-- `button_callback(update, context)` (main.py lines 107-155):
acknowledge the callback query first (outside any try: a failure there
escapes), then run the rest of the handler. -/
def button_callback (menuPath : String) (userId : Nat) (queryData : String)
    (fs : String → Option Datetime) (now : String) (tr : Transport) : Run :=
  let (ackRes, tr1) := takeResult tr
  match ackRes with
  | some e => { trace := [.ack], escaped := some e }
  | none =>
    let (rest, esc) := button_callback_rest menuPath userId queryData fs now tr1
    { trace := .ack :: rest, escaped := esc }

/-- The text-reply send attempts of a trace, each with its outcome. -/
def textSends (l : List Effect) : List (String × Option Exn) :=
  l.filterMap fun eff =>
    match eff with
    | .send (.textReply t) r => some (t, r)
    | _ => none

/-- The document-reply send attempts of a trace. -/
def docSends (l : List Effect) : List (String × String × Option Exn) :=
  l.filterMap fun eff =>
    match eff with
    | .send (.documentReply p c) r => some (p, c, r)
    | _ => none

/-- The keyboard-prompt send attempts of a trace: text and markup of each. -/
def promptSends (l : List Effect) :
    List (String × List (List InlineKeyboardButton)) :=
  l.filterMap fun eff =>
    match eff with
    | .send (.keyboardPrompt t kb) _ => some (t, kb)
    | _ => none

/-- All log records of a trace. -/
def logsOf (l : List Effect) : List (LogLevel × String) :=
  l.filterMap fun eff =>
    match eff with
    | .log lvl m => some (lvl, m)
    | _ => none

/-- The warning-level log messages of a trace. -/
def warningLogs (l : List Effect) : List String :=
  l.filterMap fun eff =>
    match eff with
    | .log .warning m => some m
    | _ => none

/-- The error-severity log messages (`logger.error` and
`logger.exception`) of a trace. -/
def errorLogs (l : List Effect) : List String :=
  l.filterMap fun eff =>
    match eff with
    | .log .error m => some m
    | .log .exception m => some m
    | _ => none

/-- Whether an effect is the acknowledgment. -/
def isAck : Effect → Bool
  | .ack => true
  | _ => false

/-- Substring containment on character lists. -/
def listContains (l pat : List Char) : Bool :=
  (List.range (l.length + 1)).any fun i => pat.isPrefixOf (l.drop i)

/-- Substring containment on strings. -/
def strContains (s pat : String) : Bool :=
  listContains s.data pat.data

/-- Whether an effect, if it is a keyboard-prompt send attempt, carries
exactly the fixed prompt text and the fixed two-button keyboard. -/
def promptOk : Effect → Bool
  | .send (.keyboardPrompt t kb) _ =>
      decide (t = "BREMOR меню:" ∧ kb = send_menu_keyboard)
  | _ => true

/-! ### Helper lemmas about substring containment -/

lemma isPrefixOf_append_self (a b : List Char) : a.isPrefixOf (a ++ b) = true := by
  induction a with
  | nil => simp [List.isPrefixOf]
  | cons x xs ih => simp [List.isPrefixOf, ih]

lemma listContains_middle (a b c : List Char) :
    listContains (a ++ b ++ c) b = true := by
  unfold listContains
  refine List.any_eq_true.mpr ⟨a.length, ?_, ?_⟩
  · refine List.mem_range.mpr ?_
    simp
    omega
  · have h1 : a ++ b ++ c = a ++ (b ++ c) := by simp [List.append_assoc]
    rw [h1, List.drop_left]
    exact isPrefixOf_append_self b c

lemma strContains_parts (s a b c : String)
    (h : s.data = a.data ++ b.data ++ c.data) : strContains s b = true := by
  unfold strContains
  rw [h]
  exact listContains_middle a.data b.data c.data

/-! ### Claims -/

/-- C1: for a `CategoryCallback` whose raw key is outside
{"breakfast", "lunch"}, the dispatcher (with no transport failure) emits
exactly one generic-failure text reply "Что-то пошло не так!", zero
document replies and zero keyboard prompts, logs exactly one warning
containing the user id and the raw key, and — whatever the transport
does — never attempts a `DocumentReply` on this path. -/
theorem unknownKey_generic_reply (mp : String) (uid : Nat) (key : String)
    (fs : String → Option Datetime) (now : String)
    (hb : key ≠ "breakfast") (hl : key ≠ "lunch") :
    (button_callback mp uid key fs now []).trace =
      [Effect.ack,
       Effect.log .warning ("Некорректный callback_data: " ++ key ++ " от " ++ toString uid),
       Effect.send (.textReply "Что-то пошло не так!") none] ∧
    (button_callback mp uid key fs now []).escaped = none ∧
    strContains ("Некорректный callback_data: " ++ key ++ " от " ++ toString uid)
      (toString uid) = true ∧
    strContains ("Некорректный callback_data: " ++ key ++ " от " ++ toString uid)
      key = true ∧
    ∀ tr : Transport, docSends (button_callback mp uid key fs now tr).trace = [] := by
  have hfm : file_map key = none := by simp [file_map, hb, hl]
  refine ⟨?_, ?_, ?_, ?_, ?_⟩
  · simp [button_callback, takeResult, button_callback_rest, hfm]
  · simp [button_callback, takeResult, button_callback_rest, hfm]
  · refine strContains_parts _ ("Некорректный callback_data: " ++ key ++ " от ")
      (toString uid) "" ?_
    simp [String.data_append, List.append_assoc]
  · refine strContains_parts _ "Некорректный callback_data: " key
      (" от " ++ toString uid) ?_
    simp [String.data_append, List.append_assoc]
  · intro tr
    match tr with
    | [] => simp [button_callback, takeResult, button_callback_rest, hfm, docSends]
    | none :: rest =>
      simp [button_callback, takeResult, button_callback_rest, hfm, docSends]
    | some e :: rest =>
      simp [button_callback, takeResult, docSends]

/-- C1 witness: the theorem instantiated at the concrete event
`CategoryCallback{user=42, rawKey="dinner"}`. -/
theorem unknownKey_generic_reply_witness :
    (button_callback "/menu" 42 "dinner" (fun _ => none) "NOW" []).trace =
      [Effect.ack,
       Effect.log .warning ("Некорректный callback_data: " ++ "dinner" ++ " от " ++ toString 42),
       Effect.send (.textReply "Что-то пошло не так!") none] :=
  (unknownKey_generic_reply "/menu" 42 "dinner" (fun _ => none) "NOW"
    (by decide) (by decide)).1

/-- C2: for a recognized key whose resolved menu file exists, with no
transport failure, the dispatcher emits exactly one `DocumentReply` whose
caption contains the file's formatted modification timestamp, followed by
exactly one `KeyboardPrompt`, and logs one info record containing the
user id. -/
theorem knownKey_file_present_document_then_prompt (mp : String) (uid : Nat)
    (key fname : String) (fs : String → Option Datetime) (now : String)
    (t : Datetime)
    (hk : file_map key = some fname)
    (hf : fs (os_path_join mp fname) = some t) :
    (button_callback mp uid key fs now []).trace =
      [Effect.ack,
       Effect.fsExists (os_path_join mp fname) true,
       Effect.fsGetMtime (os_path_join mp fname),
       Effect.fsOpen (os_path_join mp fname),
       Effect.send (.documentReply (os_path_join mp fname)
         ("От " ++ strftime_dmY_HM t)) none,
       Effect.log .info ("Файл " ++ fname ++ " отправлен пользователю ID "
         ++ toString uid ++ " " ++ now ++ "."),
       Effect.send (.keyboardPrompt "BREMOR меню:" send_menu_keyboard) none] ∧
    (button_callback mp uid key fs now []).escaped = none ∧
    strContains ("От " ++ strftime_dmY_HM t) (strftime_dmY_HM t) = true ∧
    strContains ("Файл " ++ fname ++ " отправлен пользователю ID "
      ++ toString uid ++ " " ++ now ++ ".") (toString uid) = true := by
  refine ⟨?_, ?_, ?_, ?_⟩
  · simp [button_callback, takeResult, button_callback_rest, hk, hf, send_menu]
  · simp [button_callback, takeResult, button_callback_rest, hk, hf, send_menu]
  · refine strContains_parts _ "От " (strftime_dmY_HM t) "" ?_
    simp [String.data_append, List.append_assoc]
  · refine strContains_parts _ ("Файл " ++ fname ++ " отправлен пользователю ID ")
      (toString uid) (" " ++ now ++ ".") ?_
    simp [String.data_append, List.append_assoc]

/-- C2 witness: `CategoryCallback{user=42, rawKey="lunch"}` with
`lunch.xls` present and modification time 2024-01-01T09:00. -/
theorem knownKey_file_present_witness :
    (button_callback "/menu" 42 "lunch"
        (fun p => if p = "/menu/lunch.xls" then some ⟨2024, 1, 1, 9, 0⟩ else none)
        "NOW" []).trace =
      [Effect.ack,
       Effect.fsExists (os_path_join "/menu" "lunch.xls") true,
       Effect.fsGetMtime (os_path_join "/menu" "lunch.xls"),
       Effect.fsOpen (os_path_join "/menu" "lunch.xls"),
       Effect.send (.documentReply (os_path_join "/menu" "lunch.xls")
         ("От " ++ strftime_dmY_HM ⟨2024, 1, 1, 9, 0⟩)) none,
       Effect.log .info ("Файл " ++ "lunch.xls" ++ " отправлен пользователю ID "
         ++ toString 42 ++ " " ++ "NOW" ++ "."),
       Effect.send (.keyboardPrompt "BREMOR меню:" send_menu_keyboard) none] :=
  (knownKey_file_present_document_then_prompt "/menu" 42 "lunch" "lunch.xls"
    (fun p => if p = "/menu/lunch.xls" then some ⟨2024, 1, 1, 9, 0⟩ else none)
    "NOW" ⟨2024, 1, 1, 9, 0⟩ (by decide) (by decide)).1

/-- C3: for a recognized key whose resolved menu file does not exist, the
dispatcher (with no transport failure) logs a warning, emits exactly the
`TextReply` "Файл не найден!" and never a document, then re-emits a fresh
`KeyboardPrompt`; no exception escapes and no error-severity record is
produced, so the missing file does not pass through the error
classifier. -/
theorem knownKey_file_absent_text_then_prompt (mp : String) (uid : Nat)
    (key fname : String) (fs : String → Option Datetime) (now : String)
    (hk : file_map key = some fname)
    (hf : fs (os_path_join mp fname) = none) :
    (button_callback mp uid key fs now []).trace =
      [Effect.ack,
       Effect.fsExists (os_path_join mp fname) false,
       Effect.log .warning ("Файл " ++ fname ++ " не найден! (запрос от "
         ++ toString uid ++ ")"),
       Effect.send (.textReply "Файл не найден!") none,
       Effect.send (.keyboardPrompt "BREMOR меню:" send_menu_keyboard) none] ∧
    (button_callback mp uid key fs now []).escaped = none ∧
    docSends (button_callback mp uid key fs now []).trace = [] ∧
    errorLogs (button_callback mp uid key fs now []).trace = [] := by
  refine ⟨?_, ?_, ?_, ?_⟩ <;>
    simp [button_callback, takeResult, button_callback_rest, hk, hf, send_menu,
      docSends, errorLogs]

/-- C3 witness: `CategoryCallback{user=42, rawKey="breakfast"}` with
`breakfast.xls` absent. -/
theorem knownKey_file_absent_witness :
    (button_callback "/menu" 42 "breakfast" (fun _ => none) "NOW" []).trace =
      [Effect.ack,
       Effect.fsExists (os_path_join "/menu" "breakfast.xls") false,
       Effect.log .warning ("Файл " ++ "breakfast.xls" ++ " не найден! (запрос от "
         ++ toString 42 ++ ")"),
       Effect.send (.textReply "Файл не найден!") none,
       Effect.send (.keyboardPrompt "BREMOR меню:" send_menu_keyboard) none] :=
  (knownKey_file_absent_text_then_prompt "/menu" 42 "breakfast" "breakfast.xls"
    (fun _ => none) "NOW" (by decide) rfl).1

/-- C4 counterexample: at the concrete event
`CategoryCallback{user=42, rawKey="lunch"}` with `lunch.xls` absent and a
`NetworkError` raised while re-emitting the keyboard prompt in step 4,
the exception is caught inside `send_menu` and only logged: the trace
ends with the error log, the only text reply of the whole run is
"Файл не найден!", and no `TextReply` carrying the classified message is
ever sent to the user — refuting the claim that a step-4 failure is
reported to the user via a `TextReply`. -/
theorem prompt_failure_not_reported :
    (button_callback "/menu" 42 "lunch" (fun _ => none) "NOW"
        [none, none, some .networkError]).trace =
      [Effect.ack,
       Effect.fsExists "/menu/lunch.xls" false,
       Effect.log .warning "Файл lunch.xls не найден! (запрос от 42)",
       Effect.send (.textReply "Файл не найден!") none,
       Effect.send (.keyboardPrompt "BREMOR меню:" send_menu_keyboard)
         (some .networkError),
       Effect.log .error "Ошибка сети. NetworkError"] ∧
    textSends (button_callback "/menu" 42 "lunch" (fun _ => none) "NOW"
        [none, none, some .networkError]).trace =
      [("Файл не найден!", none)] ∧
    (button_callback "/menu" 42 "lunch" (fun _ => none) "NOW"
        [none, none, some .networkError]).escaped = none :=
  ⟨rfl, rfl, rfl⟩

/-- C4 amended: an exception raised while sending in step 3 (the document
send or the "file not found" reply) is caught by the handler's ordered
except-chain, classified, logged, and reported to the user via a
`TextReply` carrying the classified message, and the step-4 re-prompt is
skipped; an exception raised while re-emitting the keyboard prompt in
step 4 is caught inside the prompt-sending routine and only logged — no
`TextReply` reports it to the user.  On all four paths (file present or
absent, failure in step 3 or step 4) the exception never propagates out
of the handler, provided the error-report send itself does not fail. -/
theorem catch_paths_classified (mp : String) (uid : Nat) (key fname : String)
    (fs : String → Option Datetime) (now : String) (e : Exn)
    (hk : file_map key = some fname) :
    (∀ t : Datetime, fs (os_path_join mp fname) = some t →
      (button_callback mp uid key fs now [none, some e]).trace =
        [Effect.ack,
         Effect.fsExists (os_path_join mp fname) true,
         Effect.fsGetMtime (os_path_join mp fname),
         Effect.fsOpen (os_path_join mp fname),
         Effect.send (.documentReply (os_path_join mp fname)
           ("От " ++ strftime_dmY_HM t)) (some e),
         classifiedLogEffect e,
         Effect.send (.textReply (classifiedUserMsg e)) none] ∧
      (button_callback mp uid key fs now [none, some e]).escaped = none ∧
      promptSends (button_callback mp uid key fs now [none, some e]).trace = []) ∧
    (fs (os_path_join mp fname) = none →
      (button_callback mp uid key fs now [none, some e]).trace =
        [Effect.ack,
         Effect.fsExists (os_path_join mp fname) false,
         Effect.log .warning ("Файл " ++ fname ++ " не найден! (запрос от "
           ++ toString uid ++ ")"),
         Effect.send (.textReply "Файл не найден!") (some e),
         classifiedLogEffect e,
         Effect.send (.textReply (classifiedUserMsg e)) none] ∧
      (button_callback mp uid key fs now [none, some e]).escaped = none ∧
      promptSends (button_callback mp uid key fs now [none, some e]).trace = []) ∧
    (∀ t : Datetime, fs (os_path_join mp fname) = some t →
      (button_callback mp uid key fs now [none, none, some e]).trace =
        [Effect.ack,
         Effect.fsExists (os_path_join mp fname) true,
         Effect.fsGetMtime (os_path_join mp fname),
         Effect.fsOpen (os_path_join mp fname),
         Effect.send (.documentReply (os_path_join mp fname)
           ("От " ++ strftime_dmY_HM t)) none,
         Effect.log .info ("Файл " ++ fname ++ " отправлен пользователю ID "
           ++ toString uid ++ " " ++ now ++ "."),
         Effect.send (.keyboardPrompt "BREMOR меню:" send_menu_keyboard) (some e),
         send_menu_catch e] ∧
      (button_callback mp uid key fs now [none, none, some e]).escaped = none ∧
      textSends (button_callback mp uid key fs now [none, none, some e]).trace = []) ∧
    (fs (os_path_join mp fname) = none →
      (button_callback mp uid key fs now [none, none, some e]).trace =
        [Effect.ack,
         Effect.fsExists (os_path_join mp fname) false,
         Effect.log .warning ("Файл " ++ fname ++ " не найден! (запрос от "
           ++ toString uid ++ ")"),
         Effect.send (.textReply "Файл не найден!") none,
         Effect.send (.keyboardPrompt "BREMOR меню:" send_menu_keyboard) (some e),
         send_menu_catch e] ∧
      (button_callback mp uid key fs now [none, none, some e]).escaped = none ∧
      textSends (button_callback mp uid key fs now [none, none, some e]).trace =
        [("Файл не найден!", none)]) := by
  refine ⟨?_, ?_, ?_, ?_⟩
  · intro t hf
    cases hc : classifyExn e <;>
      refine ⟨?_, ?_, ?_⟩ <;>
      simp [button_callback, takeResult, button_callback_rest, hk, hf,
        button_catch, promptSends, classifiedLogEffect, hc]
  · intro hf
    cases hc : classifyExn e <;>
      refine ⟨?_, ?_, ?_⟩ <;>
      simp [button_callback, takeResult, button_callback_rest, hk, hf,
        button_catch, promptSends, classifiedLogEffect, hc]
  · intro t hf
    cases hc : classifyExn e <;>
      refine ⟨?_, ?_, ?_⟩ <;>
      simp [button_callback, takeResult, button_callback_rest, hk, hf,
        send_menu, textSends, send_menu_catch, hc]
  · intro hf
    cases hc : classifyExn e <;>
      refine ⟨?_, ?_, ?_⟩ <;>
      simp [button_callback, takeResult, button_callback_rest, hk, hf,
        send_menu, textSends, send_menu_catch, hc]

/-- C4 amended witness: the absent-file step-3 failure path at the
concrete event `CategoryCallback{user=7, rawKey="breakfast"}` with a
`TelegramError` raised while sending the "file not found" reply. -/
theorem catch_paths_classified_witness :
    (button_callback "/m" 7 "breakfast" (fun _ => none) "T"
        [none, some (.telegramError "boom")]).trace =
      [Effect.ack,
       Effect.fsExists (os_path_join "/m" "breakfast.xls") false,
       Effect.log .warning ("Файл " ++ "breakfast.xls" ++ " не найден! (запрос от "
         ++ toString 7 ++ ")"),
       Effect.send (.textReply "Файл не найден!") (some (.telegramError "boom")),
       classifiedLogEffect (.telegramError "boom"),
       Effect.send (.textReply (classifiedUserMsg (.telegramError "boom"))) none] ∧
    (button_callback "/m" 7 "breakfast" (fun _ => none) "T"
        [none, some (.telegramError "boom")]).escaped = none ∧
    promptSends (button_callback "/m" 7 "breakfast" (fun _ => none) "T"
        [none, some (.telegramError "boom")]).trace = [] :=
  ((catch_paths_classified "/m" 7 "breakfast" "breakfast.xls" (fun _ => none)
    "T" (.telegramError "boom") (by decide)).2.1) rfl

/-- C5 counterexample: two runs that differ only in the content of the
Unknown-classified exception produce different user-facing text replies,
and the reply leaks the exception's content ("AAA") verbatim — refuting
the claim that the message sent to the user does not depend on the
exception's content. -/
theorem unknown_failure_message_leaks :
    textSends (button_callback "/m" 1 "lunch" (fun _ => none) "T"
        [none, some (.otherError "AAA")]).trace =
      [("Файл не найден!", some (.otherError "AAA")),
       ("Неизвестная ошибка: AAA", none)] ∧
    textSends (button_callback "/m" 1 "lunch" (fun _ => none) "T"
        [none, some (.otherError "BBB")]).trace =
      [("Файл не найден!", some (.otherError "BBB")),
       ("Неизвестная ошибка: BBB", none)] ∧
    ("Неизвестная ошибка: AAA" : String) ≠ "Неизвестная ошибка: BBB" ∧
    strContains "Неизвестная ошибка: AAA" "AAA" = true :=
  ⟨rfl, rfl, by decide, by decide⟩

/-- C5 amended: for a failure classified as Unknown during the send path,
the user-facing message is "Неизвестная ошибка: " followed by the
exception's string content — it depends on and leaks the exception's
internal detail — while the log record (emitted at `logger.exception`
severity, which carries the stack trace) contains the diagnostic
context including that same content. -/
theorem unknown_failure_leak_and_log (mp : String) (uid : Nat)
    (key fname : String) (fs : String → Option Datetime) (now : String)
    (m : String)
    (hk : file_map key = some fname)
    (hf : fs (os_path_join mp fname) = none) :
    classifyExn (.otherError m) = .unknown ∧
    textSends (button_callback mp uid key fs now
        [none, some (.otherError m)]).trace =
      [("Файл не найден!", some (.otherError m)),
       ("Неизвестная ошибка: " ++ m, none)] ∧
    logsOf (button_callback mp uid key fs now
        [none, some (.otherError m)]).trace =
      [(.warning, "Файл " ++ fname ++ " не найден! (запрос от "
         ++ toString uid ++ ")"),
       (.exception, "Неизвестная ошибка при отправке документа: " ++ m)] ∧
    strContains ("Неизвестная ошибка: " ++ m) m = true ∧
    strContains ("Неизвестная ошибка при отправке документа: " ++ m) m = true := by
  refine ⟨rfl, ?_, ?_, ?_, ?_⟩
  · simp [button_callback, takeResult, button_callback_rest, hk, hf,
      button_catch, textSends, classifiedLogEffect, classifiedUserMsg,
      classifyExn, Exn.isNetworkError, Exn.isTelegramError, Exn.message]
  · simp [button_callback, takeResult, button_callback_rest, hk, hf,
      button_catch, logsOf, classifiedLogEffect, classifiedUserMsg,
      classifyExn, Exn.isNetworkError, Exn.isTelegramError, Exn.message]
  · refine strContains_parts _ "Неизвестная ошибка: " m "" ?_
    simp [String.data_append, List.append_assoc]
  · refine strContains_parts _ "Неизвестная ошибка при отправке документа: " m "" ?_
    simp [String.data_append, List.append_assoc]

/-- C5 amended witness: the theorem at the concrete event
`CategoryCallback{user=5, rawKey="breakfast"}` with exception content
"oops". -/
theorem unknown_failure_leak_and_log_witness :
    classifyExn (.otherError "oops") = .unknown ∧
    textSends (button_callback "/m" 5 "breakfast" (fun _ => none) "T"
        [none, some (.otherError "oops")]).trace =
      [("Файл не найден!", some (.otherError "oops")),
       ("Неизвестная ошибка: " ++ "oops", none)] ∧
    logsOf (button_callback "/m" 5 "breakfast" (fun _ => none) "T"
        [none, some (.otherError "oops")]).trace =
      [(.warning, "Файл " ++ "breakfast.xls" ++ " не найден! (запрос от "
         ++ toString 5 ++ ")"),
       (.exception, "Неизвестная ошибка при отправке документа: " ++ "oops")] ∧
    strContains ("Неизвестная ошибка: " ++ "oops") "oops" = true ∧
    strContains ("Неизвестная ошибка при отправке документа: " ++ "oops")
      "oops" = true :=
  unknown_failure_leak_and_log "/m" 5 "breakfast" "breakfast.xls"
    (fun _ => none) "T" "oops" (by decide) rfl

/-- C6 counterexample: at the concrete event
`CategoryCallback{user=42, rawKey="lunch"}` with `lunch.xls` present and
modification time 2024-01-01T09:00:00, the emitted `DocumentReply`'s
caption is "От 01.01.2024 09:00" (the code formats the timestamp with
`'%d.%m.%Y %H:%M'`) and does NOT contain the substring
"2024-01-01 09:00" asserted by the claim. -/
theorem lunch_caption_format_counterexample :
    docSends (button_callback "/menu" 42 "lunch"
        (fun p => if p = "/menu/lunch.xls" then some ⟨2024, 1, 1, 9, 0⟩ else none)
        "NOW" []).trace =
      [("/menu/lunch.xls", "От 01.01.2024 09:00", none)] ∧
    strContains "От 01.01.2024 09:00" "2024-01-01 09:00" = false :=
  ⟨rfl, by decide⟩

/-- C6 amended: for `CategoryCallback{user=42, rawKey="lunch"}` with
`lunch.xls` present and modification time 2024-01-01T09:00:00, the
emitted `DocumentReply`'s caption contains the substring
"01.01.2024 09:00" (day.month.year hour:minute), and the document reply
is followed by a `KeyboardPrompt`. -/
theorem lunch_caption_format_amended :
    (button_callback "/menu" 42 "lunch"
        (fun p => if p = "/menu/lunch.xls" then some ⟨2024, 1, 1, 9, 0⟩ else none)
        "NOW" []).trace =
      [Effect.ack,
       Effect.fsExists "/menu/lunch.xls" true,
       Effect.fsGetMtime "/menu/lunch.xls",
       Effect.fsOpen "/menu/lunch.xls",
       Effect.send (.documentReply "/menu/lunch.xls" "От 01.01.2024 09:00") none,
       Effect.log .info "Файл lunch.xls отправлен пользователю ID 42 NOW.",
       Effect.send (.keyboardPrompt "BREMOR меню:" send_menu_keyboard) none] ∧
    strContains "От 01.01.2024 09:00" "01.01.2024 09:00" = true :=
  ⟨rfl, by decide⟩

lemma noAck_send_menu (a b : Bool) (tr : Transport) :
    ∀ x ∈ (send_menu a b tr).1, isAck x = false := by
  cases hab : a || b
  · simp [send_menu, hab]
  · rcases htr : takeResult tr with ⟨r, tr1⟩
    cases r with
    | none => simp [send_menu, hab, htr, isAck]
    | some e =>
      cases hc : classifyExn e <;>
        simp [send_menu, hab, htr, isAck, send_menu_catch, hc]

lemma noAck_button_catch (e : Exn) (tr : Transport) :
    ∀ x ∈ (button_catch e tr).1, isAck x = false := by
  rcases htr : takeResult tr with ⟨r, tr1⟩
  cases hc : classifyExn e <;>
    simp [button_catch, htr, isAck, classifiedLogEffect, hc]

lemma noAck_button_callback_rest (mp : String) (uid : Nat) (key : String)
    (fs : String → Option Datetime) (now : String) (tr : Transport) :
    ((button_callback_rest mp uid key fs now tr).1).all
      (fun e => !(isAck e)) = true := by
  cases hfm : file_map key with
  | none =>
    rcases htr : takeResult tr with ⟨r, tr1⟩
    simp [button_callback_rest, hfm, htr, isAck]
  | some fname =>
    cases hfs : fs (os_path_join mp fname) with
    | some mtime =>
      rcases htr : takeResult tr with ⟨r, tr1⟩
      cases r with
      | none =>
        simp [button_callback_rest, hfm, hfs, htr, isAck, List.all_append]
        exact fun x hx => noAck_send_menu true false tr1 x hx
      | some e =>
        simp [button_callback_rest, hfm, hfs, htr, isAck, List.all_append]
        exact fun x hx => noAck_button_catch e tr1 x hx
    | none =>
      rcases htr : takeResult tr with ⟨r, tr1⟩
      cases r with
      | none =>
        simp [button_callback_rest, hfm, hfs, htr, isAck, List.all_append]
        exact fun x hx => noAck_send_menu true false tr1 x hx
      | some e =>
        simp [button_callback_rest, hfm, hfs, htr, isAck, List.all_append]
        exact fun x hx => noAck_button_catch e tr1 x hx

/-- C7: on every `CategoryCallback` event, with any raw key, filesystem
state and transport behaviour, the first effect of `button_callback` is
the acknowledgment of the event, and the acknowledgment occurs nowhere
else in the trace — so it precedes every filesystem access and every
reply send the handler performs. -/
theorem ack_first (mp : String) (uid : Nat) (key : String)
    (fs : String → Option Datetime) (now : String) (tr : Transport) :
    (button_callback mp uid key fs now tr).trace.head? = some Effect.ack ∧
    ((button_callback mp uid key fs now tr).trace.tail).all
      (fun e => !(isAck e)) = true := by
  rcases htr : takeResult tr with ⟨r, tr1⟩
  cases r with
  | some e => simp [button_callback, htr, isAck]
  | none => simp [button_callback, htr, noAck_button_callback_rest]

/-- C8: the keyboard construction in `send_menu` is deterministic and
state-independent: on every call, with any arguments and any transport
behaviour, every keyboard-prompt it attempts carries exactly the fixed
text and the fixed markup `send_menu_keyboard`; whenever a reply channel
is available it attempts exactly one prompt with that payload; and the
fixed markup consists of exactly two options in the order
Breakfast ("Завтрак" → "breakfast") then Lunch ("Обед" → "lunch"). -/
theorem keyboard_fixed :
    (∀ (a b : Bool) (tr : Transport),
      ((send_menu a b tr).1).all promptOk = true) ∧
    (∀ (b : Bool) (tr : Transport),
      promptSends (send_menu true b tr).1 =
        [("BREMOR меню:", send_menu_keyboard)]) ∧
    send_menu_keyboard.map
        (fun row => row.map fun btn => (btn.text, btn.callback_data)) =
      [[("Завтрак", "breakfast"), ("Обед", "lunch")]] := by
  refine ⟨?_, ?_, rfl⟩
  · intro a b tr
    cases hab : a || b
    · simp [send_menu, hab]
    · rcases htr : takeResult tr with ⟨r, tr1⟩
      cases r with
      | none => simp [send_menu, hab, htr, promptOk]
      | some e =>
        cases hc : classifyExn e <;>
          simp [send_menu, hab, htr, promptOk, send_menu_catch, hc]
  · intro b tr
    rcases htr : takeResult tr with ⟨r, tr1⟩
    cases r with
    | none => simp [send_menu, htr, promptSends]
    | some e =>
      cases hc : classifyExn e <;>
        simp [send_menu, htr, promptSends, send_menu_catch, hc]

/-- C9: the except-chain classification is exhaustive over the three-kind
taxonomy, and the Network arm takes precedence: a `NetworkError` — which
IS a `TelegramError` by the library's class hierarchy — is classified as
`network`, never as `protocolError`; a non-network `TelegramError` is
`protocolError` and anything else is `unknown`. -/
theorem classifier_exhaustive_network_first :
    Exn.isTelegramError .networkError = true ∧
    classifyExn .networkError = FailureKind.network ∧
    FailureKind.network ≠ FailureKind.protocolError ∧
    (∀ e : Exn, classifyExn e = .network ∨ classifyExn e = .protocolError ∨
      classifyExn e = .unknown) ∧
    (∀ m : String, classifyExn (.telegramError m) = .protocolError) ∧
    (∀ m : String, classifyExn (.otherError m) = .unknown) ∧
    classifiedUserMsg .networkError = "Ошибка сети. Проверьте подключение к интернету." ∧
    classifiedLogEffect .networkError =
      .log .error "Ошибка сети при отправке документа." := by
  refine ⟨rfl, rfl, by decide, ?_, fun m => rfl, fun m => rfl, rfl, rfl⟩
  intro e
  cases e with
  | networkError => exact Or.inl rfl
  | telegramError m => exact Or.inr (Or.inl rfl)
  | otherError m => exact Or.inr (Or.inr rfl)

/-- C10: `send_menu` invoked with no `query_message` and no
`update.message` performs no send and no log at all and returns normally
(it is a total function, so no exception is raised), and a
`StartCommand` without an attached message channel produces zero
outbound replies and zero warning or error records — only its info log. -/
theorem no_message_channel_silent (uid : Nat) (tr : Transport) :
    send_menu false false tr = ([], tr) ∧
    (start uid false tr).1 =
      [Effect.log .info ("Пользователь с ID " ++ toString uid ++ " запустил /start.")] ∧
    (start uid false tr).2 = tr ∧
    textSends (start uid false tr).1 = [] ∧
    docSends (start uid false tr).1 = [] ∧
    promptSends (start uid false tr).1 = [] ∧
    warningLogs (start uid false tr).1 = [] ∧
    errorLogs (start uid false tr).1 = [] := by
  refine ⟨?_, ?_, ?_, ?_, ?_, ?_, ?_, ?_⟩ <;>
    simp [send_menu, start, textSends, docSends, promptSends, warningLogs,
      errorLogs]
